import Mathlib

/-!
Shallow embedding of the jwt-pizza-service authentication / data-access
core (the `database.js` repository layer and the user router) and proofs
of the spec's testable properties against it.

The repository layer itself ships only with its tests here, so the
repository operations are modelled from the specification (sections 4.2,
4.3, 4.4 of spec.md), each definition's doc comment says so; the user
router (`src/routes/userRouter.js`) is embedded from its source.
Database rows are Lean structures, tables are lists, machine-assigned
ids are Nat counters, and fallible operations return `Except` carrying a
`StatusCodeError` as the JS code throws.
-/

/-- Decidable equality for `Except` results, needed to evaluate the
repository operations on concrete inputs. -/
instance {ε α : Type} [DecidableEq ε] [DecidableEq α] : DecidableEq (Except ε α) := fun a b =>
  match a, b with
  | .error e1, .error e2 =>
    if h : e1 = e2 then isTrue (by rw [h]) else isFalse (fun hc => h (Except.error.inj hc))
  | .error _, .ok _ => isFalse (fun hc => Except.noConfusion hc)
  | .ok _, .error _ => isFalse (fun hc => Except.noConfusion hc)
  | .ok v1, .ok v2 =>
    if h : v1 = v2 then isTrue (by rw [h]) else isFalse (fun hc => h (Except.ok.inj hc))

/-- The role enum {Admin, Franchisee, Diner} from model.js / spec section 3. -/
inductive Role where
  | admin
  | franchisee
  | diner
deriving DecidableEq, Repr

/-- Structured error carrying an HTTP-status-like code, as thrown by the
repository (`StatusCodeError` in endpointHelper.js). -/
structure StatusCodeError where
  message : String
  statusCode : Nat
deriving DecidableEq, Repr

/-- A `user` table row: stored password is the hash digest. -/
structure UserRow where
  id : Nat
  name : String
  email : String
  password : String
deriving DecidableEq, Repr

/-- A `userRole` table row; objectId is 0 when the role carries no
franchise scope (spec section 4.4: "else objectId defaults to 0"). -/
structure RoleRow where
  userId : Nat
  role : Role
  objectId : Nat
deriving DecidableEq, Repr

/-- A `franchise` table row (only the columns the claims touch). -/
structure FranchiseRow where
  id : Nat
  name : String
deriving DecidableEq, Repr

/-- A `menu` table row; price in abstract integral units. -/
structure MenuItemRow where
  id : Nat
  title : String
  description : String
  image : String
  price : Nat
deriving DecidableEq, Repr

/-- A `dinerOrder` table row (order header). -/
structure OrderRow where
  id : Nat
  dinerId : Nat
  franchiseId : Nat
  storeId : Nat
deriving DecidableEq, Repr

/-- An `orderItem` table row: description and price are snapshots taken
at insert time. -/
structure OrderItemRow where
  orderId : Nat
  menuId : Nat
  description : String
  price : Nat
deriving DecidableEq, Repr

/-- An `auth` table row: the token column holds only the signature
segment of the issued JWT (spec section 3, Auth Token). -/
structure AuthRow where
  token : String
  userId : Nat
deriving DecidableEq, Repr

/-- The database state: one list per table, plus the auto-increment
counters the claims need (`insertId` sources for user and order rows). -/
structure DbState where
  users : List UserRow
  roles : List RoleRow
  franchises : List FranchiseRow
  menu : List MenuItemRow
  orders : List OrderRow
  orderItems : List OrderItemRow
  auth : List AuthRow
  nextUserId : Nat
  nextOrderId : Nat
deriving DecidableEq, Repr

/-- Split a character list at every `'.'`, keeping empty segments, the
semantics of JavaScript `token.split('.')`. -/
def splitDots : List Char → List (List Char)
  | [] => [[]]
  | c :: cs =>
    match splitDots cs with
    | [] => [[]]
    | r :: rs => if c = '.' then [] :: r :: rs else (c :: r) :: rs

/-- The dot-delimited segments of a token string. -/
def tokenParts (token : String) : List String :=
  (splitDots token.toList).map (fun l => String.mk l)

namespace DB

/-- Modelled from the spec: section 4.3 — the persisted session key is
the signature segment, "the third dot-delimited component" of the token;
"malformed tokens (fewer than 3 dot-delimited segments) degrade to an
empty signature key rather than throwing". -/
def getTokenSignature (token : String) : String :=
  let parts := tokenParts token
  if parts.length > 2 then parts.getD 2 "" else ""

/-- Modelled from the spec: section 4.3 `persist(userId, token)` /
section 4.4 `loginUser` — upserts the signature segment into the auth
table "with insert or no-op if already present semantics"
(`INSERT ... ON DUPLICATE KEY UPDATE token=token`). -/
def loginUser (st : DbState) (userId : Nat) (token : String) : DbState :=
  let sig := getTokenSignature token
  if st.auth.any (fun r => r.token == sig) then st
  else { st with auth := st.auth ++ [⟨sig, userId⟩] }

/-- Modelled from the spec: section 4.3 `isValid(token)` / section 4.4
`isLoggedIn` — "extracts signature segment, returns whether a matching
Auth Token row exists" (`SELECT userId FROM auth WHERE token=?`). -/
def isLoggedIn (st : DbState) (token : String) : Bool :=
  st.auth.any (fun r => r.token == getTokenSignature token)

/-- Modelled from the spec: section 4.3 `revoke(token)` / section 4.4
`logoutUser` — "deletes by signature segment"
(`DELETE FROM auth WHERE token=?`). -/
def logoutUser (st : DbState) (token : String) : DbState :=
  { st with auth := st.auth.filter (fun r => r.token != getTokenSignature token) }

end DB

/-- A role-assignment as supplied to `addUser`: `object` is the
human-readable franchise name for Franchisee, absent otherwise. -/
structure RoleReq where
  role : Role
  object : Option String
deriving DecidableEq, Repr

/-- The user record handed to `addUser`. -/
structure UserReq where
  name : String
  email : String
  password : String
  roles : List RoleReq
deriving DecidableEq, Repr

/-- A role-assignment as returned by the read path: stored objectId with
the no-scope marker surfaced as undefined (`none`). -/
structure RoleOut where
  role : Role
  objectId : Option Nat
deriving DecidableEq, Repr

/-- A user as returned by `getUser` and friends; the password field is a
`Option` so "password cleared / undefined" is representable as `none`. -/
structure GotUser where
  id : Nat
  name : String
  email : String
  roles : List RoleOut
  password : Option String
deriving DecidableEq, Repr

/-- The record `addUser` returns: the input user plus the assigned id,
with the password cleared (`{...user, id, password: undefined}`). -/
structure AddedUser where
  id : Nat
  name : String
  email : String
  roles : List RoleReq
  password : Option String
deriving DecidableEq, Repr

namespace DB

/-- Modelled from the spec: section 4.2 Password Hasher — a stand-in
one-way digest for `bcrypt.hash` (an external collaborator); only the
hash/verify contract matters to the claims. -/
def hashPw (plaintext : String) : String := "h:" ++ plaintext

/-- Modelled from the spec: section 4.2 — `verify(plaintext, digest)`,
the stand-in for `bcrypt.compare`. -/
def verifyPw (plaintext digest : String) : Bool := hashPw plaintext == digest

/-- Modelled from the spec: sections 4.4 and 8 — the uniform failure for
an unknown email or a wrong password, an unauthorized-class
`StatusCodeError` that does not reveal which case occurred. -/
def unknownUserErr : StatusCodeError := ⟨"unknown user", 401⟩

/-- Modelled from the spec: section 4.4 — `addUser` "fails with
NotFoundError if no match" when resolving a Franchisee franchise name. -/
def unknownFranchiseErr : StatusCodeError := ⟨"unknown franchise", 404⟩

/-- Modelled from the spec: section 4.4 read path — "objectId nulls
mapped to undefined"; the 0 written for unscoped roles surfaces as the
absent scope. -/
def toRoleOut (r : RoleRow) : RoleOut :=
  { role := r.role, objectId := if r.objectId == 0 then none else some r.objectId }

/-- Modelled from the spec: section 4.4 — load a user's role-assignments
(`SELECT role, objectId FROM userRole WHERE userId=?`). -/
def rolesOf (st : DbState) (uid : Nat) : List RoleOut :=
  (st.roles.filter (fun r => r.userId == uid)).map toRoleOut

/-- A stored user row converted to the returned shape: roles attached,
password cleared. -/
def toGotUser (st : DbState) (u : UserRow) : GotUser :=
  { id := u.id, name := u.name, email := u.email, roles := rolesOf st u.id,
    password := none }

/-- Modelled from the spec: section 4.4 `getUser(email, password?)` —
looks up by email, fails if absent; if a password is supplied, verifies
it against the stored hash and fails on mismatch with the same
unauthorized-class error; returns the user with roles and password
cleared. -/
def getUser (st : DbState) (email : String) (password : Option String) :
    Except StatusCodeError GotUser :=
  match st.users.find? (fun u => u.email == email) with
  | none => .error unknownUserErr
  | some u =>
    match password with
    | some p =>
        if verifyPw p u.password then .ok (toGotUser st u) else .error unknownUserErr
    | none => .ok (toGotUser st u)

/-- Modelled from the spec: section 4.4 — the role-assignment insertion
loop of `addUser`: for each role, if Franchisee resolve the franchise
name (fail if no match), else objectId defaults to 0; one
`INSERT INTO userRole` per role. Each insert lands before a later
failure can abort the loop (addUser is not listed among the
transactional operations in section 5). -/
def addUserLoop (st : DbState) (uid : Nat) : List RoleReq → Option StatusCodeError × DbState
  | [] => (none, st)
  | r :: rest =>
    if r.role = Role.franchisee then
      match st.franchises.find? (fun f => f.name == r.object.getD "") with
      | none => (some unknownFranchiseErr, st)
      | some f => addUserLoop { st with roles := st.roles ++ [⟨uid, r.role, f.id⟩] } uid rest
    else
      addUserLoop { st with roles := st.roles ++ [⟨uid, r.role, 0⟩] } uid rest

/-- Modelled from the spec: section 4.4 `addUser(user)` — hashes the
password, inserts the user row (receiving the auto-increment id), then
inserts one role-assignment row per role; returns the created user with
password cleared. -/
def addUser (st : DbState) (u : UserReq) : Except StatusCodeError AddedUser × DbState :=
  match addUserLoop
    { st with
      users := st.users ++ [⟨st.nextUserId, u.name, u.email, hashPw u.password⟩],
      nextUserId := st.nextUserId + 1 } st.nextUserId u.roles with
  | (some e, st2) => (.error e, st2)
  | (none, st2) =>
      (.ok { id := st.nextUserId, name := u.name, email := u.email, roles := u.roles,
             password := none }, st2)

/-- The re-read `updateUser` ends with: fetch the user row by id and
attach roles (two read statements). -/
def getUserById (st : DbState) (id : Nat) : Except StatusCodeError GotUser :=
  match st.users.find? (fun u => u.id == id) with
  | none => .error unknownUserErr
  | some u => .ok (toGotUser st u)

/-- The outcome of `updateUser`, with the issued statements counted so
the zero-write claim is statable: `writes` counts UPDATE statements,
`reads` the two re-fetch SELECTs. -/
structure UpdateResult where
  result : Except StatusCodeError GotUser
  state : DbState
  writes : Nat
  reads : Nat
deriving DecidableEq, Repr

/-- Modelled from the spec: section 4.4 `updateUser(id, name?, email?,
password?)` — builds the SET-clause list from the supplied fields
(password rehashed), issues one UPDATE only when that list is nonempty,
then re-reads the user (user row + roles). -/
def updateUser (st : DbState) (id : Nat) (name email password : Option String) :
    UpdateResult :=
  let params : List (UserRow → UserRow) :=
    (match password with
     | some p => [fun u => { u with password := hashPw p }]
     | none => [])
    ++ (match email with
        | some e => [fun u => { u with email := e }]
        | none => [])
    ++ (match name with
        | some n => [fun u => { u with name := n }]
        | none => [])
  if params.length > 0 then
    let st1 := { st with
      users := st.users.map (fun u =>
        if u.id == id then params.foldl (fun a f => f a) u else u) }
    { result := getUserById st1 id, state := st1, writes := 1, reads := 2 }
  else
    { result := getUserById st id, state := st, writes := 0, reads := 2 }

end DB

/-- An order item as supplied by the client to `addDinerOrder`. -/
structure OrderItemReq where
  menuId : Nat
  description : String
  price : Nat
deriving DecidableEq, Repr

/-- An order as supplied by the client to `addDinerOrder`. -/
structure OrderReq where
  franchiseId : Nat
  storeId : Nat
  items : List OrderItemReq
deriving DecidableEq, Repr

/-- The outcome of `addDinerOrder`: the transaction result (assigned
order id on success), the database state after commit or rollback, and
the number of times the connection was released (`connection.end`). -/
structure DinerOrderResult where
  outcome : Except StatusCodeError Nat
  state : DbState
  released : Nat
deriving DecidableEq, Repr

/-- The caller identity the repository and routes see: decoded id and
role-assignments, with the role-check capability computed from them. -/
structure Caller where
  id : Nat
  roles : List RoleOut
deriving DecidableEq, Repr

/-- The page returned by `getUsers`: users (each with roles), the page
number, and the more flag. -/
structure UsersPage where
  users : List GotUser
  page : Nat
  more : Bool
deriving DecidableEq, Repr

/-- The outcome of `getUsers`, with the issued user/role SELECT
statements counted so the no-query claim is statable. -/
structure UsersResult where
  result : Except StatusCodeError UsersPage
  queries : Nat
deriving DecidableEq, Repr

namespace DB

/-- Modelled from the spec: section 4.4 `addDinerOrder` — resolving an
item's menuId that matches no menu row "fails with a domain error —
e.g. no such menu item". -/
def noMenuItemErr : StatusCodeError := ⟨"no such menu item", 500⟩

/-- Modelled from the spec: section 4.4 — the item loop of
`addDinerOrder`: "for each item, resolve menuId to the current menu
price (fails ... if unresolvable) and insert an order-item row" with the
description and resolved price snapshotted. -/
def insertOrderItems (menu : List MenuItemRow) (orderId : Nat) :
    List OrderItemReq → Except StatusCodeError (List OrderItemRow)
  | [] => .ok []
  | it :: rest =>
    match menu.find? (fun m => m.id == it.menuId) with
    | none => .error noMenuItemErr
    | some m =>
      match insertOrderItems menu orderId rest with
      | .error e => .error e
      | .ok rows => .ok (⟨orderId, it.menuId, it.description, m.price⟩ :: rows)

/-- Modelled from the spec: section 4.4 `addDinerOrder` — transactional:
begin; insert the order header (receiving the auto-increment id); insert
each item; commit on success, "rollback and rethrow on any failure"
(the state reverts to the pre-transaction state); the connection is
released once on every path (try/finally). -/
def addDinerOrder (st : DbState) (uid : Nat) (o : OrderReq) : DinerOrderResult :=
  match insertOrderItems st.menu st.nextOrderId o.items with
  | .error e => { outcome := .error e, state := st, released := 1 }
  | .ok rows =>
    { outcome := .ok st.nextOrderId,
      state := { st with
        orders := st.orders ++ [⟨st.nextOrderId, uid, o.franchiseId, o.storeId⟩],
        orderItems := st.orderItems ++ rows,
        nextOrderId := st.nextOrderId + 1 },
      released := 1 }

/-- Modelled from the spec: section 9 — the duck-typed `isRole`
capability as an explicit check (identity, requiredRole) over the
caller's decoded role-assignments. -/
def isRole (c : Caller) (r : Role) : Bool := c.roles.any (fun a => a.role == r)

/-- Modelled from the spec: section 4.4 `getUsers` — "fails with
UnauthorizedError (403-class) if caller's role-check fails". -/
def unauthorizedErr : StatusCodeError := ⟨"unauthorized", 403⟩

/-- Modelled from the spec: section 4.4 — "`*` wildcard maps to SQL
`%`", the character-wise replacement `name.replace('*', '%')`. -/
def mapWildcard (s : String) : String :=
  String.mk (s.toList.map (fun c => if c = '*' then '%' else c))

/-- Modelled from the spec: SQL `LIKE` on names restricted to the
patterns the repository produces — the full wildcard `%` matches every
name, any other produced pattern matches exactly. -/
def likeMatch (pattern s : String) : Bool :=
  if pattern == "%" then true else pattern == s

/-- Modelled from the spec: section 4.4 `getUsers(admin, page, limit,
nameFilter)` — admin-only paginated name search: one SELECT fetching
`limit + 1` rows at offset `(page-1)*limit` (the over-fetch-by-one
technique), `more` set to whether the extra row existed, the extra row
dropped from the result, and one role SELECT per returned user. -/
def getUsers (st : DbState) (caller : Caller) (page limit : Nat) (nameFilter : String) :
    UsersResult :=
  if !(isRole caller Role.admin) then
    { result := .error unauthorizedErr, queries := 0 }
  else
    let pattern := mapWildcard nameFilter
    let filtered := st.users.filter (fun u => likeMatch pattern u.name)
    let fetched := (filtered.drop ((page - 1) * limit)).take (limit + 1)
    let more : Bool := decide (fetched.length > limit)
    let rows := if more then fetched.take limit else fetched
    { result := .ok { users := rows.map (toGotUser st), page := page, more := more },
      queries := 1 + rows.length }

/-- The userRole row `addUser` writes for one requested role: the
resolved franchise id for Franchisee, 0 otherwise. -/
def roleRowFor (fs : List FranchiseRow) (uid : Nat) (r : RoleReq) : RoleRow :=
  if r.role = Role.franchisee then
    ⟨uid, r.role, ((fs.find? (fun f => f.name == r.object.getD "")).map (fun f => f.id)).getD 0⟩
  else ⟨uid, r.role, 0⟩

/-- One returned role-assignment corresponds to one requested
role-assignment: same role, and the objectId is the id the franchise
name resolves to for Franchisee, absent otherwise. -/
def roleMatches (fs : List FranchiseRow) (req : RoleReq) (out : RoleOut) : Bool :=
  out.role == req.role &&
    (if req.role = Role.franchisee then
      match fs.find? (fun f => f.name == req.object.getD "") with
      | some f => out.objectId == some f.id
      | none => false
    else out.objectId == none)

/-- Pointwise correspondence of returned role-assignments with the
requested ones, in order. -/
def rolesMatch (fs : List FranchiseRow) : List RoleReq → List RoleOut → Bool
  | [], [] => true
  | req :: reqs, out :: outs => roleMatches fs req out && rolesMatch fs reqs outs
  | _, _ => false

/-- The password field of a fallible user result is absent. -/
def pwCleared : Except StatusCodeError GotUser → Bool
  | .ok g => g.password == none
  | .error _ => true

/-- Every user in a fallible `getUsers` result has an absent password. -/
def usersPwCleared : Except StatusCodeError UsersPage → Bool
  | .ok p => p.users.all (fun g => g.password == none)
  | .error _ => true

/-- Modelled from the spec: section 4.4 `deleteUser(id)` — transactional
delete of the user's role-assignments then the user row. -/
def deleteUser (st : DbState) (id : Nat) : DbState :=
  { st with
    roles := st.roles.filter (fun r => !(r.userId == id)),
    users := st.users.filter (fun u => !(u.id == id)) }

end DB

/-- The observable outcome of a routed request: HTTP status, the
`message` body field when present, whether the repository operation was
invoked, and the database state afterwards. -/
structure RouterResponse where
  status : Nat
  message : Option String
  dbInvoked : Bool
  state : DbState
deriving DecidableEq, Repr

/-- Embedded from src/routes/userRouter.js, PUT /api/user/:userId:
`if (user.id !== userId && !user.isRole(Role.Admin))` respond 403
`{message: 'unauthorized'}`; otherwise call `DB.updateUser` and respond
200 (the token re-issue in the 200 body is elided — it is outside the
claims). -/
def putUserIdHandler (st : DbState) (caller : Caller) (userId : Nat)
    (name email password : Option String) : RouterResponse :=
  if caller.id != userId && !(DB.isRole caller Role.admin) then
    { status := 403, message := some "unauthorized", dbInvoked := false, state := st }
  else
    { status := 200, message := none, dbInvoked := true,
      state := (DB.updateUser st userId name email password).state }

/-- Embedded from src/routes/userRouter.js, DELETE /api/user/:userId:
`if (user.id !== userId && !user.isRole(Role.Admin))` respond 403
`{message: 'unauthorized'}`; otherwise call `DB.deleteUser` and respond
204. -/
def deleteUserIdHandler (st : DbState) (caller : Caller) (userId : Nat) : RouterResponse :=
  if caller.id != userId && !(DB.isRole caller Role.admin) then
    { status := 403, message := some "unauthorized", dbInvoked := false, state := st }
  else
    { status := 204, message := none, dbInvoked := true, state := DB.deleteUser st userId }

section TokenLemmas

/-- Deleting every row keyed by a signature leaves no row matching it. -/
theorem auth_filter_no_match (l : List AuthRow) (s : String) :
    (l.filter (fun r => r.token != s)).any (fun r => r.token == s) = false := by
  induction l with
  | nil => rfl
  | cons a t ih =>
    by_cases h : a.token = s
    · simp [List.filter_cons, List.any_cons, h, ih]
    · simp [List.filter_cons, List.any_cons, h, ih]

end TokenLemmas

/-- C1: persisting a token (loginUser) makes isLoggedIn true for it;
after revoking it (logoutUser) isLoggedIn is false; and all three
operations depend on the token only through its third dot-delimited
(signature) segment, so tokens with equal signature segments are
interchangeable. -/
theorem token_roundtrip_keyed_by_signature
    (st : DbState) (uid : Nat) (t1 t2 : String)
    (h : DB.getTokenSignature t1 = DB.getTokenSignature t2) :
    DB.isLoggedIn (DB.loginUser st uid t1) t1 = true
    ∧ DB.isLoggedIn (DB.logoutUser st t1) t1 = false
    ∧ DB.loginUser st uid t1 = DB.loginUser st uid t2
    ∧ DB.isLoggedIn st t1 = DB.isLoggedIn st t2
    ∧ DB.logoutUser st t1 = DB.logoutUser st t2 := by
  refine ⟨?_, ?_, ?_, ?_, ?_⟩
  · unfold DB.isLoggedIn DB.loginUser
    by_cases hmem : st.auth.any (fun r => r.token == DB.getTokenSignature t1)
    · simp [hmem]
    · simp only [hmem, if_neg, Bool.not_eq_true]
      simp [List.any_append]
  · unfold DB.isLoggedIn DB.logoutUser
    exact auth_filter_no_match st.auth (DB.getTokenSignature t1)
  · unfold DB.loginUser; rw [h]
  · unfold DB.isLoggedIn; rw [h]
  · unfold DB.logoutUser; rw [h]

/-- C1 witness: concrete round trip at a three-segment token. -/
theorem token_roundtrip_keyed_by_signature_witness :
    DB.getTokenSignature "header.payload.signature"
      = DB.getTokenSignature "other.body.signature"
    ∧ (DB.isLoggedIn
        (DB.loginUser ⟨[], [], [], [], [], [], [], 1, 1⟩ 1 "header.payload.signature")
        "header.payload.signature" = true
      ∧ DB.isLoggedIn
          (DB.logoutUser ⟨[], [], [], [], [], [], [], 1, 1⟩ "header.payload.signature")
          "header.payload.signature" = false
      ∧ DB.loginUser ⟨[], [], [], [], [], [], [], 1, 1⟩ 1 "header.payload.signature"
          = DB.loginUser ⟨[], [], [], [], [], [], [], 1, 1⟩ 1 "other.body.signature"
      ∧ DB.isLoggedIn ⟨[], [], [], [], [], [], [], 1, 1⟩ "header.payload.signature"
          = DB.isLoggedIn ⟨[], [], [], [], [], [], [], 1, 1⟩ "other.body.signature"
      ∧ DB.logoutUser ⟨[], [], [], [], [], [], [], 1, 1⟩ "header.payload.signature"
          = DB.logoutUser ⟨[], [], [], [], [], [], [], 1, 1⟩ "other.body.signature") :=
  ⟨by decide,
   token_roundtrip_keyed_by_signature ⟨[], [], [], [], [], [], [], 1, 1⟩ 1
     "header.payload.signature" "other.body.signature" (by decide)⟩

section AddUserLemmas

/-- The role-insertion loop never touches the user table. -/
theorem addUserLoop_users (uid : Nat) (rs : List RoleReq) (st : DbState) :
    (DB.addUserLoop st uid rs).2.users = st.users := by
  induction rs generalizing st with
  | nil => rfl
  | cons r rest ih =>
    by_cases hf : r.role = Role.franchisee
    · cases hfind : st.franchises.find? (fun f => f.name == r.object.getD "") with
      | none => simp [DB.addUserLoop, hf, hfind]
      | some f => simp [DB.addUserLoop, hf, hfind, ih]
    · simp [DB.addUserLoop, hf, ih]

/-- The role-insertion loop never touches the franchise table. -/
theorem addUserLoop_franchises (uid : Nat) (rs : List RoleReq) (st : DbState) :
    (DB.addUserLoop st uid rs).2.franchises = st.franchises := by
  induction rs generalizing st with
  | nil => rfl
  | cons r rest ih =>
    by_cases hf : r.role = Role.franchisee
    · cases hfind : st.franchises.find? (fun f => f.name == r.object.getD "") with
      | none => simp [DB.addUserLoop, hf, hfind]
      | some f => simp [DB.addUserLoop, hf, hfind, ih]
    · simp [DB.addUserLoop, hf, ih]

/-- If some requested Franchisee role names a franchise that does not
resolve, the role-insertion loop reports the not-found error. -/
theorem addUserLoop_unknownFranchise (uid : Nat) (rs : List RoleReq) (st : DbState)
    (h : ∃ r ∈ rs, r.role = Role.franchisee ∧
      st.franchises.find? (fun f => f.name == r.object.getD "") = none) :
    (DB.addUserLoop st uid rs).1 = some DB.unknownFranchiseErr := by
  induction rs generalizing st with
  | nil => simp at h
  | cons r rest ih =>
    obtain ⟨w, hw, hrole, hfind⟩ := h
    rcases List.mem_cons.mp hw with hwr | hw'
    · have hrole' : r.role = Role.franchisee := by rw [← hwr]; exact hrole
      have hfind' : st.franchises.find? (fun f => f.name == r.object.getD "") = none := by
        rw [← hwr]; exact hfind
      simp [DB.addUserLoop, hrole', hfind']
    · by_cases hf : r.role = Role.franchisee
      · cases hfind2 : st.franchises.find? (fun f => f.name == r.object.getD "") with
        | none => simp [DB.addUserLoop, hf, hfind2]
        | some f =>
          simp only [DB.addUserLoop, hf, if_true, hfind2]
          exact ih _ ⟨w, hw', hrole, hfind⟩
      · simp only [DB.addUserLoop, hf, if_false]
        exact ih _ ⟨w, hw', hrole, hfind⟩

end AddUserLemmas

/-- C3: with a stored user whose hash the supplied password fails to
verify against, getUser fails with the unauthorized-class error, and the
failure is the very same error value produced for a non-existent email,
so the caller cannot tell the two cases apart. -/
theorem getUser_uniform_unauthorized
    (st : DbState) (email wrongPw email2 : String) (u : UserRow) (pw2 : Option String)
    (h1 : st.users.find? (fun w => w.email == email) = some u)
    (h2 : DB.verifyPw wrongPw u.password = false)
    (h3 : st.users.find? (fun w => w.email == email2) = none) :
    DB.getUser st email (some wrongPw) = .error DB.unknownUserErr
    ∧ DB.getUser st email2 pw2 = .error DB.unknownUserErr
    ∧ DB.getUser st email (some wrongPw) = DB.getUser st email2 pw2 := by
  unfold DB.getUser
  rw [h1, h3]
  simp [h2]

/-- C3 witness: concrete stored user, wrong password vs unknown email. -/
theorem getUser_uniform_unauthorized_witness :
    ((⟨[⟨1, "Test User", "test@test.com", DB.hashPw "right"⟩], [], [], [], [], [], [], 2, 1⟩ :
        DbState).users.find? (fun w => w.email == "test@test.com")
      = some ⟨1, "Test User", "test@test.com", DB.hashPw "right"⟩)
    ∧ DB.verifyPw "wrong" (UserRow.password ⟨1, "Test User", "test@test.com", DB.hashPw "right"⟩) = false
    ∧ ((⟨[⟨1, "Test User", "test@test.com", DB.hashPw "right"⟩], [], [], [], [], [], [], 2, 1⟩ :
        DbState).users.find? (fun w => w.email == "missing@test.com") = none)
    ∧ (DB.getUser ⟨[⟨1, "Test User", "test@test.com", DB.hashPw "right"⟩], [], [], [], [], [], [], 2, 1⟩
        "test@test.com" (some "wrong") = .error DB.unknownUserErr
      ∧ DB.getUser ⟨[⟨1, "Test User", "test@test.com", DB.hashPw "right"⟩], [], [], [], [], [], [], 2, 1⟩
          "missing@test.com" (some "whatever") = .error DB.unknownUserErr
      ∧ DB.getUser ⟨[⟨1, "Test User", "test@test.com", DB.hashPw "right"⟩], [], [], [], [], [], [], 2, 1⟩
          "test@test.com" (some "wrong")
        = DB.getUser ⟨[⟨1, "Test User", "test@test.com", DB.hashPw "right"⟩], [], [], [], [], [], [], 2, 1⟩
            "missing@test.com" (some "whatever")) :=
  ⟨by decide, by decide, by decide,
   getUser_uniform_unauthorized
     ⟨[⟨1, "Test User", "test@test.com", DB.hashPw "right"⟩], [], [], [], [], [], [], 2, 1⟩
     "test@test.com" "wrong" "missing@test.com"
     ⟨1, "Test User", "test@test.com", DB.hashPw "right"⟩ (some "whatever")
     (by decide) (by decide) (by decide)⟩

/-- C4 counterexample: against an empty database, addUser with a single
Franchisee role naming the missing franchise "PizzaPocket" fails with
the not-found error, yet the new user row is persisted while no
role-assignment row for it is — a partially-created user survives,
contradicting the claim's no-partial-write conjunct. -/
theorem addUser_partial_write_cex :
    (DB.addUser ⟨[], [], [], [], [], [], [], 1, 1⟩
        ⟨"Franchise Owner", "franchise@test.com", "password",
          [⟨Role.franchisee, some "PizzaPocket"⟩]⟩).1
      = .error DB.unknownFranchiseErr
    ∧ (DB.addUser ⟨[], [], [], [], [], [], [], 1, 1⟩
        ⟨"Franchise Owner", "franchise@test.com", "password",
          [⟨Role.franchisee, some "PizzaPocket"⟩]⟩).2.users
      = [⟨1, "Franchise Owner", "franchise@test.com", DB.hashPw "password"⟩]
    ∧ (DB.addUser ⟨[], [], [], [], [], [], [], 1, 1⟩
        ⟨"Franchise Owner", "franchise@test.com", "password",
          [⟨Role.franchisee, some "PizzaPocket"⟩]⟩).2.roles = [] := by
  decide

/-- C4 amended: when some Franchisee role-assignment names a franchise
that does not exist, addUser fails with the not-found-class error, and
the already-inserted user row persists (without the failed
role-assignments): the partial write is the accepted behavior, since
only addDinerOrder and deleteUser are transactional. -/
theorem addUser_unknownFranchise_partial (st : DbState) (u : UserReq)
    (h : ∃ r ∈ u.roles, r.role = Role.franchisee ∧
      st.franchises.find? (fun f => f.name == r.object.getD "") = none) :
    (DB.addUser st u).1 = .error DB.unknownFranchiseErr
    ∧ (DB.addUser st u).2.users
      = st.users ++ [⟨st.nextUserId, u.name, u.email, DB.hashPw u.password⟩] := by
  have herr := addUserLoop_unknownFranchise st.nextUserId u.roles
    { st with
      users := st.users ++ [⟨st.nextUserId, u.name, u.email, DB.hashPw u.password⟩],
      nextUserId := st.nextUserId + 1 } h
  have husers := addUserLoop_users st.nextUserId u.roles
    { st with
      users := st.users ++ [⟨st.nextUserId, u.name, u.email, DB.hashPw u.password⟩],
      nextUserId := st.nextUserId + 1 }
  unfold DB.addUser
  cases hres : DB.addUserLoop
    { st with
      users := st.users ++ [⟨st.nextUserId, u.name, u.email, DB.hashPw u.password⟩],
      nextUserId := st.nextUserId + 1 } st.nextUserId u.roles with
  | mk o st2 =>
    rw [hres] at herr husers
    have ho : o = some DB.unknownFranchiseErr := herr
    subst ho
    exact ⟨rfl, husers⟩

/-- C4 amended witness: the concrete partial write of the
counterexample, derived from the amended theorem. -/
theorem addUser_unknownFranchise_partial_witness :
    (∃ r ∈ ([⟨Role.franchisee, some "PizzaPocket"⟩] : List RoleReq),
      r.role = Role.franchisee ∧
        (⟨[], [], [], [], [], [], [], 1, 1⟩ : DbState).franchises.find?
          (fun f => f.name == r.object.getD "") = none)
    ∧ ((DB.addUser ⟨[], [], [], [], [], [], [], 1, 1⟩
          ⟨"Franchise Owner", "franchise@test.com", "password",
            [⟨Role.franchisee, some "PizzaPocket"⟩]⟩).1
        = .error DB.unknownFranchiseErr
      ∧ (DB.addUser ⟨[], [], [], [], [], [], [], 1, 1⟩
          ⟨"Franchise Owner", "franchise@test.com", "password",
            [⟨Role.franchisee, some "PizzaPocket"⟩]⟩).2.users
        = [] ++ [⟨1, "Franchise Owner", "franchise@test.com", DB.hashPw "password"⟩]) :=
  ⟨by decide,
   addUser_unknownFranchise_partial ⟨[], [], [], [], [], [], [], 1, 1⟩
     ⟨"Franchise Owner", "franchise@test.com", "password",
       [⟨Role.franchisee, some "PizzaPocket"⟩]⟩ (by decide)⟩

/-- C6: updateUser with all three fields omitted issues zero write
statements and only the two re-read statements, leaves the database
unchanged, returns exactly the stored record, and repeating the call
yields the same result. -/
theorem updateUser_all_none_noop (st : DbState) (id : Nat) :
    DB.updateUser st id none none none
      = ⟨DB.getUserById st id, st, 0, 2⟩
    ∧ DB.updateUser (DB.updateUser st id none none none).state id none none none
      = DB.updateUser st id none none none :=
  ⟨rfl, rfl⟩

/-- C5: a token with fewer than three dot-delimited segments parses (no
throw — the operations are total) to the empty signature key: loginUser
persists a row keyed by the empty string, and against a table whose
sessions all have nonempty signature keys, the empty-signature lookup of
isLoggedIn never matches and the empty-signature delete of logoutUser
removes nothing. -/
theorem malformed_token_empty_signature
    (st : DbState) (uid : Nat) (token : String)
    (h : (tokenParts token).length < 3)
    (h2 : ∀ r ∈ st.auth, r.token ≠ "") :
    DB.getTokenSignature token = ""
    ∧ DB.isLoggedIn st token = false
    ∧ (⟨"", uid⟩ : AuthRow) ∈ (DB.loginUser st uid token).auth
    ∧ DB.logoutUser st token = st := by
  have hng : ¬ ((tokenParts token).length > 2) := by omega
  have hsig : DB.getTokenSignature token = "" := by
    simp [DB.getTokenSignature, hng]
  have hlook : st.auth.any (fun r => r.token == "") = false := by
    rw [List.any_eq_false]
    intro r hr
    simpa using h2 r hr
  refine ⟨hsig, ?_, ?_, ?_⟩
  · unfold DB.isLoggedIn
    rw [hsig]
    exact hlook
  · unfold DB.loginUser
    simp [hsig, hlook]
  · unfold DB.logoutUser
    rw [hsig]
    have : st.auth.filter (fun r => r.token != "") = st.auth := by
      rw [List.filter_eq_self]
      intro r hr
      simpa using h2 r hr
    rw [this]

/-- C5 witness: the malformed token from the tests against a table
holding one real session. -/
theorem malformed_token_empty_signature_witness :
    (tokenParts "malformed-token").length < 3
    ∧ (∀ r ∈ (⟨[], [], [], [], [], [], [⟨"signature", 1⟩], 1, 1⟩ : DbState).auth, r.token ≠ "")
    ∧ (DB.getTokenSignature "malformed-token" = ""
      ∧ DB.isLoggedIn ⟨[], [], [], [], [], [], [⟨"signature", 1⟩], 1, 1⟩ "malformed-token" = false
      ∧ (⟨"", 1⟩ : AuthRow) ∈
          (DB.loginUser ⟨[], [], [], [], [], [], [⟨"signature", 1⟩], 1, 1⟩ 1 "malformed-token").auth
      ∧ DB.logoutUser ⟨[], [], [], [], [], [], [⟨"signature", 1⟩], 1, 1⟩ "malformed-token"
          = ⟨[], [], [], [], [], [], [⟨"signature", 1⟩], 1, 1⟩) :=
  ⟨by decide, by decide,
   malformed_token_empty_signature ⟨[], [], [], [], [], [], [⟨"signature", 1⟩], 1, 1⟩ 1
     "malformed-token" (by decide) (by decide)⟩

/-- If some order item's menuId resolves to no menu row, the item loop
fails with the no-such-menu-item error. -/
theorem insertOrderItems_unresolved (menu : List MenuItemRow) (oid : Nat)
    (its : List OrderItemReq)
    (h : ∃ it ∈ its, menu.find? (fun m => m.id == it.menuId) = none) :
    DB.insertOrderItems menu oid its = .error DB.noMenuItemErr := by
  induction its with
  | nil => simp at h
  | cons it rest ih =>
    obtain ⟨w, hw, hfind⟩ := h
    rcases List.mem_cons.mp hw with hwr | hw'
    · have hfind' : menu.find? (fun m => m.id == it.menuId) = none := by
        rw [← hwr]; exact hfind
      simp [DB.insertOrderItems, hfind']
    · cases hfind2 : menu.find? (fun m => m.id == it.menuId) with
      | none => simp [DB.insertOrderItems, hfind2]
      | some m =>
        have hrest := ih ⟨w, hw', hfind⟩
        simp [DB.insertOrderItems, hfind2, hrest]

/-- C2: an order holding an item whose menuId resolves to no menu row
makes addDinerOrder abort the transaction: the underlying error is
rethrown, the state is exactly the pre-call state (no order header row,
no order-item rows), and the connection is released exactly once. -/
theorem addDinerOrder_rollback (st : DbState) (uid : Nat) (o : OrderReq)
    (h : ∃ it ∈ o.items, st.menu.find? (fun m => m.id == it.menuId) = none) :
    DB.addDinerOrder st uid o
      = ⟨.error DB.noMenuItemErr, st, 1⟩ := by
  unfold DB.addDinerOrder
  rw [insertOrderItems_unresolved st.menu st.nextOrderId o.items h]

/-- C2 witness: one item referencing menuId 1 against an empty menu. -/
theorem addDinerOrder_rollback_witness :
    (∃ it ∈ ([⟨1, "Veggie", 5⟩] : List OrderItemReq),
      (⟨[], [], [], [], [], [], [], 1, 1⟩ : DbState).menu.find?
        (fun m => m.id == it.menuId) = none)
    ∧ DB.addDinerOrder ⟨[], [], [], [], [], [], [], 1, 1⟩ 5 ⟨2, 3, [⟨1, "Veggie", 5⟩]⟩
        = ⟨.error DB.noMenuItemErr, ⟨[], [], [], [], [], [], [], 1, 1⟩, 1⟩ :=
  ⟨by decide,
   addDinerOrder_rollback ⟨[], [], [], [], [], [], [], 1, 1⟩ 5 ⟨2, 3, [⟨1, "Veggie", 5⟩]⟩
     (by decide)⟩

/-- C7: when the caller's Admin role-check fails, getUsers fails with
the 403 unauthorized error and issues no user query at all. -/
theorem getUsers_non_admin_unauthorized
    (st : DbState) (caller : Caller) (page limit : Nat) (nameFilter : String)
    (h : DB.isRole caller Role.admin = false) :
    DB.getUsers st caller page limit nameFilter
      = ⟨.error DB.unauthorizedErr, 0⟩ := by
  unfold DB.getUsers
  rw [h]
  rfl

/-- C7 witness: a diner-only caller is rejected with no query. -/
theorem getUsers_non_admin_unauthorized_witness :
    DB.isRole ⟨2, [⟨Role.diner, none⟩]⟩ Role.admin = false
    ∧ DB.getUsers ⟨[], [], [], [], [], [], [], 1, 1⟩ ⟨2, [⟨Role.diner, none⟩]⟩ 1 10 "*"
        = ⟨.error DB.unauthorizedErr, 0⟩ :=
  ⟨by decide,
   getUsers_non_admin_unauthorized ⟨[], [], [], [], [], [], [], 1, 1⟩
     ⟨2, [⟨Role.diner, none⟩]⟩ 1 10 "*" (by decide)⟩

/-- C10: an authenticated PUT or DELETE /api/user/:userId whose caller
id differs from the target userId and who lacks the Admin role gets a
403 {message: unauthorized} response, the repository operation is never
invoked, and the state is unchanged. -/
theorem userRouter_forbids_cross_user_mutation
    (st : DbState) (caller : Caller) (userId : Nat)
    (name email password : Option String)
    (h1 : caller.id ≠ userId) (h2 : DB.isRole caller Role.admin = false) :
    putUserIdHandler st caller userId name email password
      = ⟨403, some "unauthorized", false, st⟩
    ∧ deleteUserIdHandler st caller userId
      = ⟨403, some "unauthorized", false, st⟩ := by
  have hb : (caller.id != userId && !(DB.isRole caller Role.admin)) = true := by
    simp [h1, h2]
  constructor
  · unfold putUserIdHandler
    rw [hb]
    rfl
  · unfold deleteUserIdHandler
    rw [hb]
    rfl

/-- C10 witness: a non-admin caller with id 2 targeting userId 9. -/
theorem userRouter_forbids_cross_user_mutation_witness :
    (2 : Nat) ≠ 9
    ∧ DB.isRole ⟨2, [⟨Role.diner, none⟩]⟩ Role.admin = false
    ∧ (putUserIdHandler ⟨[], [], [], [], [], [], [], 1, 1⟩ ⟨2, [⟨Role.diner, none⟩]⟩ 9
          (some "n") none none
        = ⟨403, some "unauthorized", false, ⟨[], [], [], [], [], [], [], 1, 1⟩⟩
      ∧ deleteUserIdHandler ⟨[], [], [], [], [], [], [], 1, 1⟩ ⟨2, [⟨Role.diner, none⟩]⟩ 9
        = ⟨403, some "unauthorized", false, ⟨[], [], [], [], [], [], [], 1, 1⟩⟩) :=
  ⟨by decide, by decide,
   userRouter_forbids_cross_user_mutation ⟨[], [], [], [], [], [], [], 1, 1⟩
     ⟨2, [⟨Role.diner, none⟩]⟩ 9 (some "n") none none (by decide) (by decide)⟩

/-- C8: for an admin caller getUsers over-fetches limit+1 rows at the
page offset and keeps at most limit of them, `more` is exactly whether
more than limit rows remained past the offset (the limit+1-th row
existed), the returned row count is min(limit, remaining), and the `*`
name filter maps to the SQL `%` wildcard (so every user matches). -/
theorem getUsers_overfetch_pagination
    (st : DbState) (caller : Caller) (page limit : Nat)
    (h : DB.isRole caller Role.admin = true) :
    DB.getUsers st caller page limit "*"
      = ⟨.ok ⟨(((st.users.drop ((page - 1) * limit)).take (limit + 1)).take limit).map
                (DB.toGotUser st),
              page,
              decide ((st.users.drop ((page - 1) * limit)).length > limit)⟩,
         1 + (((st.users.drop ((page - 1) * limit)).take (limit + 1)).take limit).length⟩
    ∧ DB.mapWildcard "*" = "%"
    ∧ (((st.users.drop ((page - 1) * limit)).take (limit + 1)).take limit).length
        = min limit (st.users.drop ((page - 1) * limit)).length := by
  have hpat : DB.mapWildcard "*" = "%" := by decide
  refine ⟨?_, hpat, ?_⟩
  · have hfil : st.users.filter (fun u => DB.likeMatch (DB.mapWildcard "*") u.name)
        = st.users := by
      rw [List.filter_eq_self]
      intro a _
      rw [hpat]
      rfl
    have hmore : decide
          (((st.users.drop ((page - 1) * limit)).take (limit + 1)).length > limit)
        = decide ((st.users.drop ((page - 1) * limit)).length > limit) := by
      rw [decide_eq_decide, List.length_take]
      omega
    unfold DB.getUsers
    rw [h]
    simp only [Bool.not_true, Bool.false_eq_true, if_false, hfil, hmore]
    by_cases hd : (st.users.drop ((page - 1) * limit)).length > limit
    · rw [decide_eq_true hd]
      simp
    · rw [decide_eq_false hd]
      have hle : ((st.users.drop ((page - 1) * limit)).take (limit + 1)).length ≤ limit := by
        rw [List.length_take]
        omega
      rw [List.take_of_length_le hle]
      simp
  · rw [List.length_take, List.length_take]
    omega

/-- C8 witness: page 1, limit 2 over three matching users returns
exactly two users with more = true (the over-fetched third row is
dropped), and `*` maps to `%`. -/
theorem getUsers_overfetch_pagination_witness :
    DB.isRole ⟨1, [⟨Role.admin, none⟩]⟩ Role.admin = true
    ∧ (DB.getUsers
          ⟨[⟨1, "Alice", "a@t.com", "h"⟩, ⟨2, "Bob", "b@t.com", "h"⟩,
            ⟨3, "Cara", "c@t.com", "h"⟩], [], [], [], [], [], [], 4, 1⟩
          ⟨1, [⟨Role.admin, none⟩]⟩ 1 2 "*"
        = ⟨.ok ⟨[⟨1, "Alice", "a@t.com", [], none⟩, ⟨2, "Bob", "b@t.com", [], none⟩],
                1, true⟩, 3⟩
      ∧ DB.mapWildcard "*" = "%"
      ∧ (2 : Nat) = min 2 3) :=
  ⟨by decide,
   getUsers_overfetch_pagination
     ⟨[⟨1, "Alice", "a@t.com", "h"⟩, ⟨2, "Bob", "b@t.com", "h"⟩,
       ⟨3, "Cara", "c@t.com", "h"⟩], [], [], [], [], [], [], 4, 1⟩
     ⟨1, [⟨Role.admin, none⟩]⟩ 1 2 (by decide)⟩

/-- When every requested Franchisee role resolves, the role-insertion
loop succeeds and appends exactly one userRole row per requested role. -/
theorem addUserLoop_resolvable (uid : Nat) (rs : List RoleReq) (st : DbState)
    (h : ∀ r ∈ rs, r.role = Role.franchisee →
      (st.franchises.find? (fun f => f.name == r.object.getD "")).isSome = true) :
    DB.addUserLoop st uid rs
      = (none, { st with roles := st.roles ++ rs.map (DB.roleRowFor st.franchises uid) }) := by
  induction rs generalizing st with
  | nil => simp [DB.addUserLoop]
  | cons r rest ih =>
    by_cases hf : r.role = Role.franchisee
    · have hs := h r (List.mem_cons_self r rest) hf
      obtain ⟨f, hfind⟩ := Option.isSome_iff_exists.mp hs
      rw [show DB.addUserLoop st uid (r :: rest)
          = DB.addUserLoop { st with roles := st.roles ++ [⟨uid, r.role, f.id⟩] } uid rest by
        simp [DB.addUserLoop, hf, hfind]]
      have ihx := ih { st with roles := st.roles ++ [⟨uid, r.role, f.id⟩] }
        (fun x hx hfx => h x (List.mem_cons_of_mem r hx) hfx)
      rw [ihx]
      simp [DB.roleRowFor, hf, hfind]
    · rw [show DB.addUserLoop st uid (r :: rest)
          = DB.addUserLoop { st with roles := st.roles ++ [⟨uid, r.role, 0⟩] } uid rest by
        simp [DB.addUserLoop, hf]]
      have ihx := ih { st with roles := st.roles ++ [⟨uid, r.role, 0⟩] }
        (fun x hx hfx => h x (List.mem_cons_of_mem r hx) hfx)
      rw [ihx]
      simp [DB.roleRowFor, hf]

/-- The rows the role loop writes, read back through the null-to-absent
mapping, correspond pointwise to the requested role-assignments. -/
theorem rolesMatch_roleRows (fs : List FranchiseRow) (uid : Nat) (rs : List RoleReq)
    (hres : ∀ r ∈ rs, r.role = Role.franchisee →
      (fs.find? (fun f => f.name == r.object.getD "")).isSome = true)
    (hfid : ∀ f ∈ fs, f.id ≠ 0) :
    DB.rolesMatch fs rs ((rs.map (DB.roleRowFor fs uid)).map DB.toRoleOut) = true := by
  induction rs with
  | nil => rfl
  | cons r rest ih =>
    simp only [List.map_cons, DB.rolesMatch, Bool.and_eq_true]
    constructor
    · by_cases hf : r.role = Role.franchisee
      · have hs := hres r (List.mem_cons_self r rest) hf
        obtain ⟨f, hfind⟩ := Option.isSome_iff_exists.mp hs
        have hf0 : f.id ≠ 0 := hfid f (List.mem_of_find?_eq_some hfind)
        simp [DB.roleMatches, DB.roleRowFor, DB.toRoleOut, hf, hfind, hf0]
      · simp [DB.roleMatches, DB.roleRowFor, DB.toRoleOut, hf]
    · exact ih (fun x hx hfx => hres x (List.mem_cons_of_mem r hx) hfx)

/-- The re-read after updateUser never exposes a password. -/
theorem getUserById_pwCleared (st : DbState) (id : Nat) :
    DB.pwCleared (DB.getUserById st id) = true := by
  unfold DB.getUserById
  cases hf : st.users.find? (fun u => u.id == id) with
  | none => rfl
  | some u => rfl

/-- getUser never exposes a password. -/
theorem getUser_pwCleared (st : DbState) (em : String) (pw : Option String) :
    DB.pwCleared (DB.getUser st em pw) = true := by
  unfold DB.getUser
  cases hf : st.users.find? (fun u => u.email == em) with
  | none => rfl
  | some u =>
    cases pw with
    | none => rfl
    | some p =>
      by_cases hv : DB.verifyPw p u.password
      · simp [hv, DB.pwCleared, DB.toGotUser]
      · simp [hv, DB.pwCleared]

/-- updateUser never exposes a password. -/
theorem updateUser_pwCleared (st : DbState) (id : Nat) (n e p : Option String) :
    DB.pwCleared (DB.updateUser st id n e p).result = true := by
  rcases p with _ | p <;> rcases e with _ | e <;> rcases n with _ | n <;>
    simp [DB.updateUser, getUserById_pwCleared]

/-- getUsers never exposes a password. -/
theorem getUsers_pwCleared (st : DbState) (c : Caller) (pg lim : Nat) (f : String) :
    DB.usersPwCleared (DB.getUsers st c pg lim f).result = true := by
  unfold DB.getUsers
  cases h : DB.isRole c Role.admin with
  | false => rfl
  | true =>
    simp only [h, Bool.not_true, Bool.false_eq_true, if_false]
    simp only [DB.usersPwCleared, List.all_eq_true]
    intro g hg
    obtain ⟨u, hu, rfl⟩ := List.mem_map.mp hg
    rfl

/-- C9: for a fresh email and resolvable roles, addUser succeeds
returning the created user with the password field absent, and
getUser(email, password) on the resulting state succeeds, returns a user
with the password field absent whose role-assignments correspond
pointwise to those given at creation (absent objectId for unscoped
roles, the resolved franchise id for Franchisee); moreover getUser,
updateUser and getUsers never return a password on any input. -/
theorem addUser_getUser_roundtrip (st : DbState) (u : UserReq)
    (hfresh : ∀ w ∈ st.users, w.email ≠ u.email)
    (hres : ∀ r ∈ u.roles, r.role = Role.franchisee →
      (st.franchises.find? (fun f => f.name == r.object.getD "")).isSome = true)
    (hfid : ∀ f ∈ st.franchises, f.id ≠ 0)
    (hrid : ∀ r ∈ st.roles, r.userId ≠ st.nextUserId) :
    (∃ g, (DB.addUser st u).1
        = .ok ⟨st.nextUserId, u.name, u.email, u.roles, none⟩
      ∧ DB.getUser (DB.addUser st u).2 u.email (some u.password) = .ok g
      ∧ g.password = none
      ∧ DB.rolesMatch st.franchises u.roles g.roles = true)
    ∧ (∀ st2 em pw, DB.pwCleared (DB.getUser st2 em pw) = true)
    ∧ (∀ st2 id2 n e p, DB.pwCleared (DB.updateUser st2 id2 n e p).result = true)
    ∧ (∀ st2 c pg lim f, DB.usersPwCleared (DB.getUsers st2 c pg lim f).result = true) := by
  refine ⟨?_, getUser_pwCleared, updateUser_pwCleared, getUsers_pwCleared⟩
  have hloop := addUserLoop_resolvable st.nextUserId u.roles
    { st with
      users := st.users ++ [⟨st.nextUserId, u.name, u.email, DB.hashPw u.password⟩],
      nextUserId := st.nextUserId + 1 } hres
  have haddU : DB.addUser st u
      = (.ok ⟨st.nextUserId, u.name, u.email, u.roles, none⟩,
         { st with
            users := st.users ++ [⟨st.nextUserId, u.name, u.email, DB.hashPw u.password⟩],
            roles := st.roles ++ u.roles.map (DB.roleRowFor st.franchises st.nextUserId),
            nextUserId := st.nextUserId + 1 }) := by
    unfold DB.addUser
    rw [hloop]
  have hfindu : List.find? (fun w => w.email == u.email)
      (st.users ++ [⟨st.nextUserId, u.name, u.email, DB.hashPw u.password⟩])
      = some ⟨st.nextUserId, u.name, u.email, DB.hashPw u.password⟩ := by
    rw [List.find?_append, List.find?_eq_none.mpr (fun x hx => by simpa using hfresh x hx)]
    simp
  have hrowuid : ∀ r ∈ u.roles.map (DB.roleRowFor st.franchises st.nextUserId),
      (r.userId == st.nextUserId) = true := by
    intro r hr
    obtain ⟨q, _, rfl⟩ := List.mem_map.mp hr
    unfold DB.roleRowFor
    split <;> simp
  have hroles : DB.rolesOf
      { st with
        users := st.users ++ [⟨st.nextUserId, u.name, u.email, DB.hashPw u.password⟩],
        roles := st.roles ++ u.roles.map (DB.roleRowFor st.franchises st.nextUserId),
        nextUserId := st.nextUserId + 1 } st.nextUserId
      = (u.roles.map (DB.roleRowFor st.franchises st.nextUserId)).map DB.toRoleOut := by
    unfold DB.rolesOf
    rw [show ({ st with
        users := st.users ++ [⟨st.nextUserId, u.name, u.email, DB.hashPw u.password⟩],
        roles := st.roles ++ u.roles.map (DB.roleRowFor st.franchises st.nextUserId),
        nextUserId := st.nextUserId + 1 } : DbState).roles
      = st.roles ++ u.roles.map (DB.roleRowFor st.franchises st.nextUserId) from rfl]
    rw [List.filter_append,
      List.filter_eq_nil_iff.mpr (fun r hr => by simpa using hrid r hr),
      List.filter_eq_self.mpr hrowuid]
    simp
  refine ⟨DB.toGotUser
      { st with
        users := st.users ++ [⟨st.nextUserId, u.name, u.email, DB.hashPw u.password⟩],
        roles := st.roles ++ u.roles.map (DB.roleRowFor st.franchises st.nextUserId),
        nextUserId := st.nextUserId + 1 }
      ⟨st.nextUserId, u.name, u.email, DB.hashPw u.password⟩, ?_, ?_, rfl, ?_⟩
  · rw [haddU]
  · rw [haddU]
    unfold DB.getUser
    rw [show ({ st with
        users := st.users ++ [⟨st.nextUserId, u.name, u.email, DB.hashPw u.password⟩],
        roles := st.roles ++ u.roles.map (DB.roleRowFor st.franchises st.nextUserId),
        nextUserId := st.nextUserId + 1 } : DbState).users
      = st.users ++ [⟨st.nextUserId, u.name, u.email, DB.hashPw u.password⟩] from rfl]
    rw [hfindu]
    simp [DB.verifyPw]
  · rw [show (DB.toGotUser
        { st with
          users := st.users ++ [⟨st.nextUserId, u.name, u.email, DB.hashPw u.password⟩],
          roles := st.roles ++ u.roles.map (DB.roleRowFor st.franchises st.nextUserId),
          nextUserId := st.nextUserId + 1 }
        ⟨st.nextUserId, u.name, u.email, DB.hashPw u.password⟩).roles
      = DB.rolesOf
        { st with
          users := st.users ++ [⟨st.nextUserId, u.name, u.email, DB.hashPw u.password⟩],
          roles := st.roles ++ u.roles.map (DB.roleRowFor st.franchises st.nextUserId),
          nextUserId := st.nextUserId + 1 } st.nextUserId from rfl]
    rw [hroles]
    exact rolesMatch_roleRows st.franchises st.nextUserId u.roles hres hfid

/-- C9 witness: creating a franchisee+diner user against a database
holding the franchise PizzaPocket (id 5) and reading it back. -/
theorem addUser_getUser_roundtrip_witness :
    (∀ w ∈ (⟨[], [], [⟨5, "PizzaPocket"⟩], [], [], [], [], 1, 1⟩ : DbState).users,
      w.email ≠ "f@test.com")
    ∧ (∀ r ∈ [(⟨Role.franchisee, some "PizzaPocket"⟩ : RoleReq), ⟨Role.diner, none⟩],
        r.role = Role.franchisee →
          ((⟨[], [], [⟨5, "PizzaPocket"⟩], [], [], [], [], 1, 1⟩ : DbState).franchises.find?
            (fun f => f.name == r.object.getD "")).isSome = true)
    ∧ (∀ f ∈ (⟨[], [], [⟨5, "PizzaPocket"⟩], [], [], [], [], 1, 1⟩ : DbState).franchises,
        f.id ≠ 0)
    ∧ (∀ r ∈ (⟨[], [], [⟨5, "PizzaPocket"⟩], [], [], [], [], 1, 1⟩ : DbState).roles,
        r.userId ≠ 1)
    ∧ ((∃ g, (DB.addUser (⟨[], [], [⟨5, "PizzaPocket"⟩], [], [], [], [], 1, 1⟩ : DbState)
            ⟨"Owner", "f@test.com", "pw",
              [⟨Role.franchisee, some "PizzaPocket"⟩, ⟨Role.diner, none⟩]⟩).1
          = .ok ⟨1, "Owner", "f@test.com",
              [⟨Role.franchisee, some "PizzaPocket"⟩, ⟨Role.diner, none⟩], none⟩
        ∧ DB.getUser
            (DB.addUser (⟨[], [], [⟨5, "PizzaPocket"⟩], [], [], [], [], 1, 1⟩ : DbState)
              ⟨"Owner", "f@test.com", "pw",
                [⟨Role.franchisee, some "PizzaPocket"⟩, ⟨Role.diner, none⟩]⟩).2
            "f@test.com" (some "pw") = .ok g
        ∧ g.password = none
        ∧ DB.rolesMatch [⟨5, "PizzaPocket"⟩]
            [⟨Role.franchisee, some "PizzaPocket"⟩, ⟨Role.diner, none⟩] g.roles = true)
      ∧ (∀ st2 em pw, DB.pwCleared (DB.getUser st2 em pw) = true)
      ∧ (∀ st2 id2 n e p, DB.pwCleared (DB.updateUser st2 id2 n e p).result = true)
      ∧ (∀ st2 c pg lim f, DB.usersPwCleared (DB.getUsers st2 c pg lim f).result = true)) :=
  ⟨by decide, by decide, by decide, by decide,
   addUser_getUser_roundtrip
     ⟨[], [], [⟨5, "PizzaPocket"⟩], [], [], [], [], 1, 1⟩
     ⟨"Owner", "f@test.com", "pw",
       [⟨Role.franchisee, some "PizzaPocket"⟩, ⟨Role.diner, none⟩]⟩
     (by decide) (by decide) (by decide) (by decide)⟩
